import Mathlib

/-!
# Formal model of the visitor-tracker API (`src/api/main.py`)

The program is a small HTTP service that records page visits in a single JSON
document persisted through the GitHub contents API, and serves aggregate
statistics.  This file gives a shallow embedding of its data model and of the
four functions `get_github_file`, `save_to_github`, `track_visit` and
`get_stats`.

Modelling conventions:

* The JSON document `{"total_visits": ..., "unique_visitors": [...],
  "visits": [...]}` becomes the structure `VisitorDocument`; a visit entry
  becomes `VisitRecord`.  Python integers are modelled as `Int`.
* Network effects are made explicit: the outcome of the single GET performed
  by `get_github_file` is a `ReadOutcome` argument, and the outcomes of the
  GET-then-PUT pair performed by `save_to_github` are a `SaveWorld` argument.
  Both functions additionally return the list (count) of HTTP requests they
  issued, so that "no network call" statements can be expressed.
* Exceptions raised inside the `try` blocks (transport errors, base64 decode
  errors, `json.loads` parse errors, `response.json()` failures) are the
  `exn` constructors of the outcome types; the Lean functions are total, which
  reflects that the Python functions catch every exception and never raise to
  their caller.
* `datetime.now()` values are passed in as the already-formatted strings the
  code derives from them (`timestamp` for the visit record, `nowStr` for the
  commit message, `today` for the `YYYY-MM-DD` date).
* Python `str.startswith` compares codepoint sequences; a Lean `String` is a
  sequence of codepoints via `String.data`, so it is modelled as
  `List.isPrefixOf` on `String.data`.
-/

namespace VisitorTracker

/-- One element of the `visits` list:
`{"timestamp": ..., "ip": ..., "user_agent": ...}`. -/
structure VisitRecord where
  timestamp : String
  ip : String
  user_agent : String
deriving DecidableEq

/-- The persisted JSON document. -/
structure VisitorDocument where
  total_visits : Int
  unique_visitors : List String
  visits : List VisitRecord
deriving DecidableEq

/-- The fallback document `{"total_visits": 0, "unique_visitors": [], "visits": []}`
returned by `get_github_file` whenever the data cannot be read. -/
def emptySkeleton : VisitorDocument := ⟨0, [], []⟩

/-- `DATA_FILE_PATH = "visitor_data.json"` from the configuration section. -/
def DATA_FILE_PATH : String := "visitor_data.json"

/-- The URL `https://api.github.com/repos/{GITHUB_REPO}/contents/{DATA_FILE_PATH}`
built by both storage functions. -/
def githubUrl (repo : String) : String :=
  "https://api.github.com/repos/" ++ repo ++ "/contents/" ++ DATA_FILE_PATH

/-- Outcome of the GET request performed by `get_github_file`:

* `ok d` — status 200 and the body's base64 content decodes and parses as the
  document `d`;
* `missing` — 404, the file does not exist yet (a non-200 status);
* `httpError code` — any other non-200 status;
* `exn` — an exception inside the `try` block: transport failure, base64
  decode failure, or a `json.loads` parse failure on malformed content. -/
inductive ReadOutcome where
  | ok (d : VisitorDocument)
  | missing
  | httpError (code : Nat)
  | exn
deriving DecidableEq

/-- `get_github_file()`: fetch the visitor data from GitHub.  Returns the
document together with the number of HTTP requests issued.  With no token
configured it short-circuits to the empty skeleton without any request;
otherwise one GET is issued and every outcome other than a successfully
parsed 200 yields the empty skeleton. -/
def get_github_file (token repo : String) (o : ReadOutcome) : VisitorDocument × Nat :=
  if token = "" then
    (emptySkeleton, 0)
  else
    match o with
    | .ok d => (d, 1)
    | .missing => (emptySkeleton, 1)
    | .httpError _ => (emptySkeleton, 1)
    | .exn => (emptySkeleton, 1)

/-! ## Serialization: `json.dumps(data, indent=2)` and `base64.b64encode` -/

/-- Lowercase hexadecimal digit, for `\uXXXX` escapes. -/
def hexDigit (n : Nat) : Char := "0123456789abcdef".toList.getD n '0'

/-- A `\uXXXX` escape for a 16-bit code unit. -/
def uEscape (n : Nat) : String :=
  String.mk ['\\', 'u', hexDigit (n / 4096 % 16), hexDigit (n / 256 % 16),
    hexDigit (n / 16 % 16), hexDigit (n % 16)]

/-- JSON string escaping as performed by `json.dumps` with its default
`ensure_ascii=True`: quote, backslash and the named control characters get
two-character escapes, other control characters and all non-ASCII codepoints
get `\uXXXX` escapes (surrogate pairs above the BMP). -/
def jsonEscapeChar (c : Char) : String :=
  if c = '\"' then "\\\""
  else if c = '\\' then "\\\\"
  else if c = '\n' then "\\n"
  else if c = '\r' then "\\r"
  else if c = '\t' then "\\t"
  else if c = '\x08' then "\\b"
  else if c = '\x0c' then "\\f"
  else if c.toNat < 32 then uEscape c.toNat
  else if c.toNat < 127 then String.mk [c]
  else if c.toNat < 65536 then uEscape c.toNat
  else uEscape (55296 + (c.toNat - 65536) / 1024) ++ uEscape (56320 + (c.toNat - 65536) % 1024)

/-- A JSON string literal. -/
def jsonString (s : String) : String :=
  "\"" ++ String.join (s.data.map jsonEscapeChar) ++ "\""

/-- One element of the `visits` array as laid out by `json.dumps(..., indent=2)`
at nesting depth 2. -/
def dumpVisit (v : VisitRecord) : String :=
  "    \x7b\n      \"timestamp\": " ++ jsonString v.timestamp
    ++ ",\n      \"ip\": " ++ jsonString v.ip
    ++ ",\n      \"user_agent\": " ++ jsonString v.user_agent
    ++ "\n    \x7d"

/-- One element of the `unique_visitors` array at nesting depth 2. -/
def dumpStringItem (s : String) : String := "    " ++ jsonString s

/-- The `unique_visitors` array as laid out by `json.dumps(..., indent=2)`. -/
def dumpUniqueVisitors : List String → String
  | [] => "[]"
  | l => "[\n" ++ String.intercalate ",\n" (l.map dumpStringItem) ++ "\n  ]"

/-- The `visits` array as laid out by `json.dumps(..., indent=2)`. -/
def dumpVisits : List VisitRecord → String
  | [] => "[]"
  | l => "[\n" ++ String.intercalate ",\n" (l.map dumpVisit) ++ "\n  ]"

/-- `json.dumps(data, indent=2)` for a `VisitorDocument`, with the key order
`total_visits`, `unique_visitors`, `visits` used when the document is built. -/
def jsonDumps (d : VisitorDocument) : String :=
  "\x7b\n  \"total_visits\": " ++ toString d.total_visits
    ++ ",\n  \"unique_visitors\": " ++ dumpUniqueVisitors d.unique_visitors
    ++ ",\n  \"visits\": " ++ dumpVisits d.visits
    ++ "\n\x7d"

/-- The RFC 4648 base64 alphabet. -/
def base64Table : List Char :=
  "ABCDEFGHIJKLMNOPQRSTUVWXYZabcdefghijklmnopqrstuvwxyz0123456789+/".toList

/-- The base64 character for a 6-bit value. -/
def b64c (n : Nat) : Char := base64Table.getD n '='

/-- Base64 encoding of a byte sequence (each `Nat` is one byte),
with `=` padding, as produced by `base64.b64encode`. -/
def b64encodeBytes : List Nat → String
  | [] => ""
  | [a] =>
      String.mk [b64c (a / 4), b64c (a % 4 * 16)] ++ "=="
  | [a, b] =>
      String.mk [b64c (a / 4), b64c (a % 4 * 16 + b / 16), b64c (b % 16 * 4)] ++ "="
  | a :: b :: c :: rest =>
      String.mk [b64c (a / 4), b64c (a % 4 * 16 + b / 16), b64c (b % 16 * 4 + c / 64),
        b64c (c % 64)] ++ b64encodeBytes rest

/-- `base64.b64encode(s.encode()).decode()`: base64 over the UTF-8 bytes. -/
def b64encode (s : String) : String :=
  b64encodeBytes (s.toUTF8.toList.map (fun b => b.toNat))

/-! ## `save_to_github` -/

/-- The JSON body of the PUT request: commit `message`, base64 `content`, and
the optional `sha` key added only when a revision token was found. -/
structure PutPayload where
  message : String
  content : String
  sha : Option String
deriving DecidableEq

/-- An HTTP request issued by `save_to_github` (or `get_github_file`). -/
inductive Request where
  | get (url : String)
  | put (url : String) (payload : PutPayload)
deriving DecidableEq

/-- Outcome of the PUT request: a status code, or an exception in transit. -/
inductive PutOutcome where
  | status (code : Nat)
  | exn
deriving DecidableEq

/-- Outcome of the network interactions inside `save_to_github`'s `try` block:

* `fetchExn` — the sha-fetching GET (or its `response.json()`) raises;
* `proceed fetchStatus shaField putOutcome` — the GET returns `fetchStatus`
  with `response.json().get("sha") = shaField`, and the PUT then has outcome
  `putOutcome`. -/
inductive SaveWorld where
  | fetchExn
  | proceed (fetchStatus : Nat) (shaField : Option String) (putOutcome : PutOutcome)
deriving DecidableEq

/-- Python's `if sha:` truthiness guard on the fetched revision token: the
`sha` key is added to the PUT payload only when `sha` is truthy, i.e. neither
`None` nor the empty string. -/
def truthySha : Option String → Option String
  | none => none
  | some s => if s = "" then none else some s

/-- `save_to_github(data)`: returns the boolean result together with the list
of HTTP requests issued, in order.  With no token it returns `False` before
any request.  Otherwise it GETs the file to read its `sha` (taken only from a
200 response), builds the PUT payload with a timestamped commit message and
the base64-encoded `json.dumps` of the document — adding the `sha` key only
when the fetched token is truthy (`if sha:`, so an empty string is dropped) —
and reports success exactly for a 200 or 201 PUT status; any exception yields
`False`. -/
def save_to_github (token repo nowStr : String) (data : VisitorDocument)
    (w : SaveWorld) : Bool × List Request :=
  if token = "" then
    (false, [])
  else
    let url := githubUrl repo
    match w with
    | .fetchExn => (false, [.get url])
    | .proceed st shaField putOutcome =>
        let sha : Option String := if st = 200 then shaField else none
        let content := b64encode (jsonDumps data)
        let payload : PutPayload :=
          ⟨"Update visitor stats - " ++ nowStr, content, truthySha sha⟩
        match putOutcome with
        | .exn => (false, [.get url, .put url payload])
        | .status code => (decide (code = 200 ∨ code = 201), [.get url, .put url payload])

/-! ## `track_visit` and `get_stats` -/

/-- `request.headers.get("user-agent", "Unknown")`. -/
def userAgentOf (h : Option String) : String := h.getD "Unknown"

/-- The in-memory mutation performed by `track_visit` between load and save:
append the visit record, increment `total_visits`, and append the client IP
to `unique_visitors` when it is not already a member. -/
def recordVisit (data : VisitorDocument) (client_ip user_agent timestamp : String) :
    VisitorDocument :=
  let data : VisitorDocument :=
    { data with
      visits := data.visits ++ [⟨timestamp, client_ip, user_agent⟩],
      total_visits := data.total_visits + 1 }
  if client_ip ∈ data.unique_visitors then data
  else { data with unique_visitors := data.unique_visitors ++ [client_ip] }

/-- The response body of `POST /api/track`. -/
structure TrackResponse where
  success : Bool
  total_visits : Int
  unique_visitors : Nat
deriving DecidableEq

/-- `track_visit(request)`: load, mutate in memory, save (result discarded),
respond.  Returns the response body, the document handed to `save_to_github`,
and the discarded boolean result of the save. -/
def track_visit (token repo : String) (o : ReadOutcome) (client_ip : String)
    (userAgentHeader : Option String) (timestamp nowStr : String) (w : SaveWorld) :
    TrackResponse × VisitorDocument × Bool :=
  let user_agent := userAgentOf userAgentHeader
  let data := (get_github_file token repo o).1
  let data := recordVisit data client_ip user_agent timestamp
  let saved := (save_to_github token repo nowStr data w).1
  (⟨true, data.total_visits, data.unique_visitors.length⟩, data, saved)

/-- The response body of `GET /api/stats`. -/
structure StatsResponse where
  total_visits : Int
  unique_visitors : Nat
  visits_today : Nat
  recent_visits : List VisitRecord
deriving DecidableEq

/-- Python `s.startswith(p)`: codepoint-sequence prefix test. -/
def startswith (s p : String) : Bool := p.data.isPrefixOf s.data

/-- `get_stats()`: load the document and derive the statistics.
`recent_visits` is `data["visits"][-10:] if data["visits"] else []` and
`visits_today` is `sum(1 for v in data["visits"] if v["timestamp"].startswith(today))`. -/
def get_stats (token repo : String) (o : ReadOutcome) (today : String) : StatsResponse :=
  let data := (get_github_file token repo o).1
  let total_visits := data.total_visits
  let unique_visitors := data.unique_visitors.length
  let recent_visits :=
    if data.visits.isEmpty then [] else data.visits.drop (data.visits.length - 10)
  let visits_today := (data.visits.filter (fun v => startswith v.timestamp today)).length
  ⟨total_visits, unique_visitors, visits_today, recent_visits⟩

/-! ## Sequences of tracked visits

A sequence of `POST /api/track` calls, absent races: each call's load returns
the document stored by the previous call. -/

/-- The per-request inputs of one `POST /api/track` call. -/
structure TrackArgs where
  ip : String
  userAgentHeader : Option String
  timestamp : String
deriving DecidableEq

/-- The document stored after a sequence of `track_visit` calls, each loading
the document saved by the previous one (no interleaving writers). -/
def trackSeq (token repo nowStr : String) (w : SaveWorld) (args : List TrackArgs)
    (d : VisitorDocument) : VisitorDocument :=
  args.foldl
    (fun d a => (track_visit token repo (.ok d) a.ip a.userAgentHeader a.timestamp nowStr w).2.1)
    d

/-- The pure composition of the in-memory mutations of a call sequence. -/
def recordSeq (args : List TrackArgs) (d : VisitorDocument) : VisitorDocument :=
  args.foldl (fun d a => recordVisit d a.ip (userAgentOf a.userAgentHeader) a.timestamp) d

/-- A concrete document with eleven visits (counter in sync). -/
def c5doc : VisitorDocument :=
  ⟨11, ["a1", "a2", "a3", "a4", "a5", "a6", "a7", "a8", "a9", "a10", "a11"],
    [⟨"t1", "a1", "u"⟩, ⟨"t2", "a2", "u"⟩, ⟨"t3", "a3", "u"⟩, ⟨"t4", "a4", "u"⟩,
     ⟨"t5", "a5", "u"⟩, ⟨"t6", "a6", "u"⟩, ⟨"t7", "a7", "u"⟩, ⟨"t8", "a8", "u"⟩,
     ⟨"t9", "a9", "u"⟩, ⟨"t10", "a10", "u"⟩, ⟨"t11", "a11", "u"⟩]⟩

/-- A concrete document with two visits dated 2026-10-12 (one written with a
timezone offset) and one visit from the previous date. -/
def c6doc : VisitorDocument :=
  ⟨3, ["a"],
    [⟨"2026-10-12T08:00:00.123456", "a", "u"⟩,
     ⟨"2026-10-12T23:59:59+13:00", "a", "u"⟩,
     ⟨"2026-10-11T23:59:00", "a", "u"⟩]⟩

/-! ## Helper lemmas -/

theorem save_to_github_fetchExn (token repo nowStr : String) (d : VisitorDocument)
    (h : token ≠ "") :
    save_to_github token repo nowStr d .fetchExn = (false, [.get (githubUrl repo)]) := by
  simp [save_to_github, h]

theorem save_to_github_proceed (token repo nowStr : String) (d : VisitorDocument)
    (st : Nat) (shaField : Option String) (po : PutOutcome) (h : token ≠ "") :
    save_to_github token repo nowStr d (.proceed st shaField po) =
      ((match po with
        | .status code => decide (code = 200 ∨ code = 201)
        | .exn => false),
       [.get (githubUrl repo),
        .put (githubUrl repo)
          ⟨"Update visitor stats - " ++ nowStr, b64encode (jsonDumps d),
            truthySha (if st = 200 then shaField else none)⟩]) := by
  cases po <;> simp [save_to_github, h]

theorem truthySha_eq_some (st : Nat) (shaField : Option String) (s : String) :
    truthySha (if st = 200 then shaField else none) = some s ↔
      st = 200 ∧ shaField = some s ∧ s ≠ "" := by
  by_cases hst : st = 200
  · rw [if_pos hst]
    cases shaField with
    | none =>
        show none = some s ↔ _
        constructor
        · intro hc
          exact Option.noConfusion hc
        · rintro ⟨_, hc, _⟩
          exact Option.noConfusion hc
    | some t =>
        show (if t = "" then none else some t) = some s ↔ _
        by_cases ht : t = ""
        · rw [if_pos ht]
          constructor
          · intro hc
            exact Option.noConfusion hc
          · rintro ⟨_, hts, hne⟩
            exact absurd ((Option.some.inj hts) ▸ ht) hne
        · rw [if_neg ht]
          constructor
          · intro hts
            have hts' : t = s := Option.some.inj hts
            subst hts'
            exact ⟨hst, rfl, ht⟩
          · rintro ⟨_, hts, _⟩
            exact hts
  · rw [if_neg hst]
    show none = some s ↔ _
    constructor
    · intro hc
      exact Option.noConfusion hc
    · rintro ⟨hc, _⟩
      exact absurd hc hst

theorem recordVisit_visits (d : VisitorDocument) (ip ua ts : String) :
    (recordVisit d ip ua ts).visits = d.visits ++ [⟨ts, ip, ua⟩] := by
  simp only [recordVisit]
  split <;> rfl

theorem recordVisit_total (d : VisitorDocument) (ip ua ts : String) :
    (recordVisit d ip ua ts).total_visits = d.total_visits + 1 := by
  simp only [recordVisit]
  split <;> rfl

theorem recordVisit_unique (d : VisitorDocument) (ip ua ts : String) :
    (recordVisit d ip ua ts).unique_visitors =
      if ip ∈ d.unique_visitors then d.unique_visitors
      else d.unique_visitors ++ [ip] := by
  simp only [recordVisit]
  split <;> rfl

theorem recordVisit_nodup (d : VisitorDocument) (ip ua ts : String)
    (h : d.unique_visitors.Nodup) : (recordVisit d ip ua ts).unique_visitors.Nodup := by
  rw [recordVisit_unique]
  by_cases hm : ip ∈ d.unique_visitors
  · rw [if_pos hm]; exact h
  · rw [if_neg hm]
    refine List.Nodup.append h (List.nodup_singleton _) ?_
    intro x hx hx'
    rw [List.mem_singleton] at hx'
    exact hm (hx' ▸ hx)

theorem get_github_file_ok (token repo : String) (d : VisitorDocument)
    (h : token ≠ "") : (get_github_file token repo (.ok d)).1 = d := by
  simp [get_github_file, h]

theorem get_github_file_missing (token repo : String) :
    (get_github_file token repo .missing).1 = emptySkeleton := by
  by_cases h : token = "" <;> simp [get_github_file, h]

theorem get_stats_total (token repo today : String) (d : VisitorDocument)
    (h : token ≠ "") :
    (get_stats token repo (.ok d) today).total_visits = d.total_visits := by
  simp [get_stats, get_github_file, h]

theorem get_stats_unique (token repo today : String) (d : VisitorDocument)
    (h : token ≠ "") :
    (get_stats token repo (.ok d) today).unique_visitors = d.unique_visitors.length := by
  simp [get_stats, get_github_file, h]

theorem get_stats_today (token repo today : String) (d : VisitorDocument)
    (h : token ≠ "") :
    (get_stats token repo (.ok d) today).visits_today =
      (d.visits.filter (fun v => startswith v.timestamp today)).length := by
  simp [get_stats, get_github_file, h]

theorem get_stats_recent (token repo today : String) (d : VisitorDocument)
    (h : token ≠ "") :
    (get_stats token repo (.ok d) today).recent_visits =
      if d.visits.isEmpty then [] else d.visits.drop (d.visits.length - 10) := by
  simp [get_stats, get_github_file, h]

theorem track_visit_stored (token repo : String) (d : VisitorDocument)
    (ip : String) (ua : Option String) (ts nowStr : String) (w : SaveWorld)
    (h : token ≠ "") :
    (track_visit token repo (.ok d) ip ua ts nowStr w).2.1 =
      recordVisit d ip (userAgentOf ua) ts := by
  simp [track_visit, get_github_file, h]

theorem trackSeq_eq_recordSeq (token repo nowStr : String) (w : SaveWorld)
    (args : List TrackArgs) (d : VisitorDocument) (h : token ≠ "") :
    trackSeq token repo nowStr w args d = recordSeq args d := by
  induction args generalizing d with
  | nil => rfl
  | cons a rest ih =>
      simp only [trackSeq, recordSeq, List.foldl_cons] at ih ⊢
      rw [track_visit_stored token repo d a.ip a.userAgentHeader a.timestamp nowStr w h]
      exact ih _

theorem recordSeq_total (args : List TrackArgs) (d : VisitorDocument) :
    (recordSeq args d).total_visits = d.total_visits + args.length := by
  induction args generalizing d with
  | nil => simp [recordSeq]
  | cons a rest ih =>
      simp only [recordSeq, List.foldl_cons] at ih ⊢
      rw [ih, recordVisit_total]
      simp only [List.length_cons]
      push_cast
      omega

theorem recordSeq_visits_length (args : List TrackArgs) (d : VisitorDocument) :
    (recordSeq args d).visits.length = d.visits.length + args.length := by
  induction args generalizing d with
  | nil => simp [recordSeq]
  | cons a rest ih =>
      simp only [recordSeq, List.foldl_cons] at ih ⊢
      rw [ih, recordVisit_visits]
      simp
      omega

theorem recordSeq_unique_fresh (args : List TrackArgs) (d : VisitorDocument)
    (hnd : (args.map TrackArgs.ip).Nodup)
    (hfresh : ∀ a ∈ args, a.ip ∉ d.unique_visitors) :
    (recordSeq args d).unique_visitors = d.unique_visitors ++ args.map TrackArgs.ip := by
  induction args generalizing d with
  | nil => simp [recordSeq]
  | cons a rest ih =>
      simp only [List.map_cons, List.nodup_cons] at hnd
      have ha : a.ip ∉ d.unique_visitors := hfresh a (List.mem_cons_self a rest)
      simp only [recordSeq, List.foldl_cons] at ih ⊢
      have hstep : (recordVisit d a.ip (userAgentOf a.userAgentHeader) a.timestamp).unique_visitors
          = d.unique_visitors ++ [a.ip] := by
        rw [recordVisit_unique, if_neg ha]
      have hrest : ∀ x ∈ rest,
          x.ip ∉ (recordVisit d a.ip (userAgentOf a.userAgentHeader) a.timestamp).unique_visitors := by
        intro x hx
        rw [hstep, List.mem_append, List.mem_singleton]
        rintro (hmem | heq)
        · exact hfresh x (List.mem_cons_of_mem a hx) hmem
        · exact hnd.1 (heq ▸ List.mem_map_of_mem TrackArgs.ip hx)
      rw [ih _ hnd.2 hrest, hstep, List.append_assoc, List.singleton_append, List.map_cons]

theorem recordSeq_unique_mem (args : List TrackArgs) (d : VisitorDocument) (ip0 : String)
    (hmem : ip0 ∈ d.unique_visitors) (hsame : ∀ a ∈ args, a.ip = ip0) :
    (recordSeq args d).unique_visitors = d.unique_visitors := by
  induction args generalizing d with
  | nil => simp [recordSeq]
  | cons a rest ih =>
      simp only [recordSeq, List.foldl_cons] at ih ⊢
      have ha : a.ip = ip0 := hsame a (List.mem_cons_self a rest)
      have hstep : (recordVisit d a.ip (userAgentOf a.userAgentHeader) a.timestamp).unique_visitors
          = d.unique_visitors := by
        rw [recordVisit_unique, if_pos (ha ▸ hmem)]
      rw [ih _ (hstep ▸ hmem) (fun x hx => hsame x (List.mem_cons_of_mem a hx)), hstep]

/-! ## Claims -/

/-- C1: for every outcome of the remote read other than a successfully parsed
200 response — missing object (404), any other non-success HTTP status,
transport exception, or malformed content (a decode or parse failure, which
raises inside the `try` block) — `get_github_file` returns the empty skeleton
document; being a total Lean function, it never fails its caller. -/
theorem claim_C1_load_error_skeleton (token repo : String) (code : Nat) :
    (get_github_file token repo .missing).1 = emptySkeleton
    ∧ (get_github_file token repo (.httpError code)).1 = emptySkeleton
    ∧ (get_github_file token repo .exn).1 = emptySkeleton := by
  refine ⟨?_, ?_, ?_⟩ <;> (by_cases h : token = "" <;> simp [get_github_file, h])

/-- C2: one recorded visit preserves `total_visits = visits.length`; and after
a race-free sequence of `track_visit` calls with pairwise distinct addresses,
starting from the empty skeleton, `get_stats` reports `total_visits = N` and
`unique_visitors = N`. -/
theorem claim_C2_counter_invariant (d : VisitorDocument)
    (ip ua ts token repo nowStr today : String) (w : SaveWorld) (args : List TrackArgs)
    (h0 : token ≠ "") (h1 : d.total_visits = (d.visits.length : Int))
    (h2 : (args.map TrackArgs.ip).Nodup) :
    (recordVisit d ip ua ts).total_visits = ((recordVisit d ip ua ts).visits.length : Int)
    ∧ (get_stats token repo (.ok (trackSeq token repo nowStr w args emptySkeleton))
        today).total_visits = (args.length : Int)
    ∧ (get_stats token repo (.ok (trackSeq token repo nowStr w args emptySkeleton))
        today).unique_visitors = args.length := by
  refine ⟨?_, ?_, ?_⟩
  · rw [recordVisit_total, recordVisit_visits, h1, List.length_append,
      List.length_singleton]
    push_cast
    omega
  · rw [trackSeq_eq_recordSeq token repo nowStr w args emptySkeleton h0,
      get_stats_total token repo today _ h0, recordSeq_total]
    simp [emptySkeleton]
  · rw [trackSeq_eq_recordSeq token repo nowStr w args emptySkeleton h0,
      get_stats_unique token repo today _ h0,
      recordSeq_unique_fresh args emptySkeleton h2 (by intro a _; simp [emptySkeleton])]
    simp [emptySkeleton]

/-- C2 witness: two track calls with distinct addresses from the skeleton. -/
theorem claim_C2_counter_invariant_witness :
    ((⟨2, ["a"], [⟨"t1", "a", "u"⟩, ⟨"t2", "a", "u"⟩]⟩ : VisitorDocument).total_visits
        = (((⟨2, ["a"], [⟨"t1", "a", "u"⟩, ⟨"t2", "a", "u"⟩]⟩ :
            VisitorDocument)).visits.length : Int))
    ∧ (([⟨"a", none, "t1"⟩, ⟨"b", some "m", "t2"⟩] : List TrackArgs).map TrackArgs.ip).Nodup
    ∧ ((recordVisit ⟨2, ["a"], [⟨"t1", "a", "u"⟩, ⟨"t2", "a", "u"⟩]⟩ "c" "u" "t3").total_visits
        = (((recordVisit ⟨2, ["a"], [⟨"t1", "a", "u"⟩, ⟨"t2", "a", "u"⟩]⟩ "c" "u"
            "t3")).visits.length : Int)
      ∧ (get_stats "tok" "o/r" (.ok (trackSeq "tok" "o/r" "now" .fetchExn
          [⟨"a", none, "t1"⟩, ⟨"b", some "m", "t2"⟩] emptySkeleton)) "2026-10-12").total_visits
          = (([⟨"a", none, "t1"⟩, ⟨"b", some "m", "t2"⟩] : List TrackArgs).length : Int)
      ∧ (get_stats "tok" "o/r" (.ok (trackSeq "tok" "o/r" "now" .fetchExn
          [⟨"a", none, "t1"⟩, ⟨"b", some "m", "t2"⟩] emptySkeleton)) "2026-10-12").unique_visitors
          = ([⟨"a", none, "t1"⟩, ⟨"b", some "m", "t2"⟩] : List TrackArgs).length) :=
  ⟨by decide, by decide,
    claim_C2_counter_invariant ⟨2, ["a"], [⟨"t1", "a", "u"⟩, ⟨"t2", "a", "u"⟩]⟩
      "c" "u" "t3" "tok" "o/r" "now" "2026-10-12" .fetchExn
      [⟨"a", none, "t1"⟩, ⟨"b", some "m", "t2"⟩]
      (by decide) (by decide) (by decide)⟩

/-- C3: one recorded visit inserts the address only when it is not already a
member, so a duplicate-free `unique_visitors` stays duplicate-free; and after
a race-free sequence of `track_visit` calls that all come from the same
address, starting from the empty skeleton, `get_stats` reports
`unique_visitors = 1` and `total_visits = N`. -/
theorem claim_C3_unique_dedup (d : VisitorDocument)
    (ip ua ts token repo nowStr today ip0 : String) (w : SaveWorld) (args : List TrackArgs)
    (h0 : token ≠ "") (h1 : d.unique_visitors.Nodup) (h2 : args ≠ [])
    (h3 : ∀ a ∈ args, a.ip = ip0) :
    (recordVisit d ip ua ts).unique_visitors.Nodup
    ∧ (ip ∈ d.unique_visitors →
        (recordVisit d ip ua ts).unique_visitors = d.unique_visitors)
    ∧ (ip ∉ d.unique_visitors →
        (recordVisit d ip ua ts).unique_visitors = d.unique_visitors ++ [ip])
    ∧ (get_stats token repo (.ok (trackSeq token repo nowStr w args emptySkeleton))
        today).unique_visitors = 1
    ∧ (get_stats token repo (.ok (trackSeq token repo nowStr w args emptySkeleton))
        today).total_visits = (args.length : Int) := by
  obtain ⟨a, rest, rfl⟩ := List.exists_cons_of_ne_nil h2
  have ha : a.ip = ip0 := h3 a (List.mem_cons_self a rest)
  have hstep : (recordVisit emptySkeleton a.ip (userAgentOf a.userAgentHeader)
      a.timestamp).unique_visitors = [ip0] := by
    rw [recordVisit_unique, if_neg (by simp [emptySkeleton]), ha]
    rfl
  refine ⟨recordVisit_nodup d ip ua ts h1, ?_, ?_, ?_, ?_⟩
  · intro hm; rw [recordVisit_unique, if_pos hm]
  · intro hm; rw [recordVisit_unique, if_neg hm]
  · rw [trackSeq_eq_recordSeq token repo nowStr w _ emptySkeleton h0,
      get_stats_unique token repo today _ h0]
    show (recordSeq rest (recordVisit emptySkeleton a.ip (userAgentOf a.userAgentHeader)
      a.timestamp)).unique_visitors.length = 1
    rw [recordSeq_unique_mem rest _ ip0 (by rw [hstep]; exact List.mem_singleton_self ip0)
      (fun x hx => h3 x (List.mem_cons_of_mem a hx)), hstep]
    rfl
  · rw [trackSeq_eq_recordSeq token repo nowStr w _ emptySkeleton h0,
      get_stats_total token repo today _ h0, recordSeq_total]
    simp [emptySkeleton]

/-- C3 witness: three track calls from the same address. -/
theorem claim_C3_unique_dedup_witness :
    (["x", "y"] : List String).Nodup
    ∧ ([⟨"a", none, "t1"⟩, ⟨"a", some "m", "t2"⟩, ⟨"a", none, "t3"⟩] :
        List TrackArgs) ≠ []
    ∧ (∀ x ∈ ([⟨"a", none, "t1"⟩, ⟨"a", some "m", "t2"⟩, ⟨"a", none, "t3"⟩] :
        List TrackArgs), x.ip = "a")
    ∧ ((recordVisit ⟨5, ["x", "y"], []⟩ "x" "u" "t9").unique_visitors.Nodup
      ∧ ("x" ∈ (⟨5, ["x", "y"], []⟩ : VisitorDocument).unique_visitors →
          (recordVisit ⟨5, ["x", "y"], []⟩ "x" "u" "t9").unique_visitors = ["x", "y"])
      ∧ ("x" ∉ (⟨5, ["x", "y"], []⟩ : VisitorDocument).unique_visitors →
          (recordVisit ⟨5, ["x", "y"], []⟩ "x" "u" "t9").unique_visitors
            = ["x", "y"] ++ ["x"])
      ∧ (get_stats "tok" "o/r" (.ok (trackSeq "tok" "o/r" "now" .fetchExn
          [⟨"a", none, "t1"⟩, ⟨"a", some "m", "t2"⟩, ⟨"a", none, "t3"⟩]
          emptySkeleton)) "2026-10-12").unique_visitors = 1
      ∧ (get_stats "tok" "o/r" (.ok (trackSeq "tok" "o/r" "now" .fetchExn
          [⟨"a", none, "t1"⟩, ⟨"a", some "m", "t2"⟩, ⟨"a", none, "t3"⟩]
          emptySkeleton)) "2026-10-12").total_visits
          = (([⟨"a", none, "t1"⟩, ⟨"a", some "m", "t2"⟩, ⟨"a", none, "t3"⟩] :
              List TrackArgs).length : Int)) :=
  ⟨by decide, by decide, by decide,
    claim_C3_unique_dedup ⟨5, ["x", "y"], []⟩ "x" "u" "t9" "tok" "o/r" "now"
      "2026-10-12" "a" .fetchExn
      [⟨"a", none, "t1"⟩, ⟨"a", some "m", "t2"⟩, ⟨"a", none, "t3"⟩]
      (by decide) (by decide) (by decide) (by decide)⟩

/-- C4: the track endpoint's response has `success = true`, is identical for
every storage outcome (the boolean result of `save_to_github` is discarded),
and its counters are computed from the in-memory document; no error response
exists. -/
theorem claim_C4_track_ignores_save (token repo : String) (o : ReadOutcome)
    (ip : String) (ua : Option String) (ts nowStr : String) (w wAlt : SaveWorld) :
    (track_visit token repo o ip ua ts nowStr w).1.success = true
    ∧ (track_visit token repo o ip ua ts nowStr w).1
        = (track_visit token repo o ip ua ts nowStr wAlt).1
    ∧ (track_visit token repo o ip ua ts nowStr w).1.total_visits
        = (recordVisit (get_github_file token repo o).1 ip (userAgentOf ua) ts).total_visits
    ∧ (track_visit token repo o ip ua ts nowStr w).1.unique_visitors
        = (recordVisit (get_github_file token repo o).1 ip (userAgentOf ua)
            ts).unique_visitors.length :=
  ⟨rfl, rfl, rfl, rfl⟩

/-- C9: a missing user-agent header is stored as `"Unknown"`; a first track
call from `"1.2.3.4"` with no user-agent header against empty storage stores a
record with agent `"Unknown"` and responds
`{success: true, total_visits: 1, unique_visitors: 1}`. -/
theorem claim_C9_unknown_agent (token repo : String) (o : ReadOutcome)
    (ip ts nowStr : String) (w : SaveWorld) :
    (track_visit token repo o ip none ts nowStr w).2.1.visits
      = (get_github_file token repo o).1.visits ++ [⟨ts, ip, "Unknown"⟩]
    ∧ (track_visit token repo .missing "1.2.3.4" none ts nowStr w).1
        = ⟨true, 1, 1⟩
    ∧ (track_visit token repo .missing "1.2.3.4" none ts nowStr w).2.1.visits
        = [⟨ts, "1.2.3.4", "Unknown"⟩] := by
  refine ⟨?_, ?_, ?_⟩
  · show (recordVisit (get_github_file token repo o).1 ip (userAgentOf none) ts).visits = _
    rw [recordVisit_visits]
    rfl
  · show (⟨true, (recordVisit (get_github_file token repo .missing).1 "1.2.3.4"
        (userAgentOf none) ts).total_visits,
        (recordVisit (get_github_file token repo .missing).1 "1.2.3.4"
          (userAgentOf none) ts).unique_visitors.length⟩ : TrackResponse) = ⟨true, 1, 1⟩
    rw [get_github_file_missing]
    rfl
  · show (recordVisit (get_github_file token repo .missing).1 "1.2.3.4"
        (userAgentOf none) ts).visits = _
    rw [get_github_file_missing]
    rfl

/-- C5: `recent_visits` is the last-10 suffix of `visits` in original order:
it equals `visits.drop (visits.length - 10)`, is a suffix of `visits`, is the
whole list when fewer than 10 visits exist, is empty when `visits` is empty,
and has length `min 10 visits.length` — which is `min 10 total_visits` when
the counter invariant holds. -/
theorem claim_C5_recent_visits (token repo today : String) (d : VisitorDocument)
    (h0 : token ≠ "") :
    (get_stats token repo (.ok d) today).recent_visits
      = d.visits.drop (d.visits.length - 10)
    ∧ (get_stats token repo (.ok d) today).recent_visits <:+ d.visits
    ∧ (d.visits.length < 10 →
        (get_stats token repo (.ok d) today).recent_visits = d.visits)
    ∧ (d.visits = [] → (get_stats token repo (.ok d) today).recent_visits = [])
    ∧ (get_stats token repo (.ok d) today).recent_visits.length = min 10 d.visits.length
    ∧ (d.total_visits = (d.visits.length : Int) →
        ((get_stats token repo (.ok d) today).recent_visits.length : Int)
          = min 10 d.total_visits) := by
  have ha : (get_stats token repo (.ok d) today).recent_visits
      = d.visits.drop (d.visits.length - 10) := by
    rw [get_stats_recent token repo today d h0]
    by_cases he : d.visits.isEmpty = true
    · rw [if_pos he, List.isEmpty_iff.mp he, List.drop_nil]
    · rw [if_neg he]
  have hlen : (get_stats token repo (.ok d) today).recent_visits.length
      = min 10 d.visits.length := by
    rw [ha, List.length_drop]
    omega
  refine ⟨ha, ?_, ?_, ?_, hlen, ?_⟩
  · rw [ha]
    exact List.drop_suffix _ _
  · intro hlt
    rw [ha, Nat.sub_eq_zero_of_le (Nat.le_of_lt hlt), List.drop_zero]
  · intro hnil
    rw [ha, hnil]
    rfl
  · intro ht
    rw [hlen, ht]
    push_cast
    rfl

/-- C5 witness: a document with 11 visits, all statements instantiated. -/
theorem claim_C5_recent_visits_witness :
    ("tok" : String) ≠ ""
    ∧ ((get_stats "tok" "o/r" (.ok c5doc) "2026-10-12").recent_visits
          = c5doc.visits.drop (c5doc.visits.length - 10)
      ∧ (get_stats "tok" "o/r" (.ok c5doc) "2026-10-12").recent_visits <:+ c5doc.visits
      ∧ (c5doc.visits.length < 10 →
          (get_stats "tok" "o/r" (.ok c5doc) "2026-10-12").recent_visits = c5doc.visits)
      ∧ (c5doc.visits = [] →
          (get_stats "tok" "o/r" (.ok c5doc) "2026-10-12").recent_visits = [])
      ∧ (get_stats "tok" "o/r" (.ok c5doc) "2026-10-12").recent_visits.length
          = min 10 c5doc.visits.length
      ∧ (c5doc.total_visits = (c5doc.visits.length : Int) →
          ((get_stats "tok" "o/r" (.ok c5doc) "2026-10-12").recent_visits.length : Int)
            = min 10 c5doc.total_visits)) :=
  ⟨by decide, claim_C5_recent_visits "tok" "o/r" "2026-10-12" c5doc (by decide)⟩

/-- C6: `visits_today` counts exactly the records whose stored timestamp
string has today's date as a literal string prefix — a codepoint-sequence
prefix comparison, not a parsed-date comparison — and a document none of
whose timestamps carry that prefix yields zero regardless of the records'
absolute recency. -/
theorem claim_C6_visits_today (token repo today : String) (d : VisitorDocument)
    (h0 : token ≠ "") :
    (get_stats token repo (.ok d) today).visits_today
      = d.visits.countP (fun v => today.data.isPrefixOf v.timestamp.data)
    ∧ (∀ v : VisitRecord, startswith v.timestamp today = true ↔
        ∃ rest : List Char, v.timestamp.data = today.data ++ rest)
    ∧ ((∀ v ∈ d.visits, ¬ ∃ rest : List Char, v.timestamp.data = today.data ++ rest) →
        (get_stats token repo (.ok d) today).visits_today = 0) := by
  have hiff : ∀ v : VisitRecord, startswith v.timestamp today = true ↔
      ∃ rest : List Char, v.timestamp.data = today.data ++ rest := by
    intro v
    simp only [startswith]
    rw [List.isPrefixOf_iff_prefix]
    exact ⟨fun ⟨t, ht⟩ => ⟨t, ht.symm⟩, fun ⟨t, ht⟩ => ⟨t, ht.symm⟩⟩
  refine ⟨?_, hiff, ?_⟩
  · simp only [get_stats_today token repo today d h0, startswith,
      List.countP_eq_length_filter]
  · intro hall
    rw [get_stats_today token repo today d h0, List.length_eq_zero,
      List.filter_eq_nil_iff]
    intro v hv
    exact fun hc => hall v hv ((hiff v).mp hc)

/-- C6 witness: today is 2026-10-12; two records share the date prefix (one
with an offset timezone), one is from the previous date. -/
theorem claim_C6_visits_today_witness :
    ("tok" : String) ≠ ""
    ∧ ((get_stats "tok" "o/r" (.ok c6doc) "2026-10-12").visits_today
          = c6doc.visits.countP
              (fun v => "2026-10-12".data.isPrefixOf v.timestamp.data)
      ∧ (∀ v : VisitRecord, startswith v.timestamp "2026-10-12" = true ↔
          ∃ rest : List Char, v.timestamp.data = "2026-10-12".data ++ rest)
      ∧ ((∀ v ∈ c6doc.visits,
            ¬ ∃ rest : List Char, v.timestamp.data = "2026-10-12".data ++ rest) →
          (get_stats "tok" "o/r" (.ok c6doc) "2026-10-12").visits_today = 0))
    ∧ (get_stats "tok" "o/r" (.ok c6doc) "2026-10-12").visits_today = 2 :=
  ⟨by decide, claim_C6_visits_today "tok" "o/r" "2026-10-12" c6doc (by decide),
    by decide⟩

/-- C7: with an empty authorization credential, `get_github_file` returns the
empty skeleton having issued zero HTTP requests, and `save_to_github` returns
`false` having issued zero HTTP requests. -/
theorem claim_C7_empty_token_no_network (repo nowStr : String) (o : ReadOutcome)
    (d : VisitorDocument) (w : SaveWorld) :
    get_github_file "" repo o = (emptySkeleton, 0)
    ∧ save_to_github "" repo nowStr d w = (false, []) :=
  ⟨rfl, rfl⟩

/-- C8: with a non-empty credential, `save_to_github` first GETs the stored
object; whenever it reaches the PUT, the PUT carries the base64-encoded
serialized document, a commit message containing the timestamp, and the
revision token exactly when one was found — the sha-fetch returned 200 and
its sha field was truthy (present and non-empty, Python's `if sha:`),
omitting the key otherwise; the result is `true` exactly when the PUT reports
200 or 201, and `false` on any transport exception. -/
theorem claim_C8_save_payload (token repo nowStr : String) (d : VisitorDocument)
    (w : SaveWorld) (h : token ≠ "") :
    (save_to_github token repo nowStr d w).2.head? = some (.get (githubUrl repo))
    ∧ (∀ u p, Request.put u p ∈ (save_to_github token repo nowStr d w).2 →
        u = githubUrl repo
        ∧ p.content = b64encode (jsonDumps d)
        ∧ p.message = "Update visitor stats - " ++ nowStr)
    ∧ (∀ st shaField po, w = .proceed st shaField po →
        (save_to_github token repo nowStr d w).2
          = [.get (githubUrl repo),
             .put (githubUrl repo)
               ⟨"Update visitor stats - " ++ nowStr, b64encode (jsonDumps d),
                 truthySha (if st = 200 then shaField else none)⟩])
    ∧ (∀ st shaField s, truthySha (if st = 200 then shaField else none) = some s ↔
        st = 200 ∧ shaField = some s ∧ s ≠ "")
    ∧ ((save_to_github token repo nowStr d w).1 = true ↔
        ∃ st shaField code, w = .proceed st shaField (.status code)
          ∧ (code = 200 ∨ code = 201)) := by
  cases w with
  | fetchExn =>
      rw [save_to_github_fetchExn token repo nowStr d h]
      refine ⟨rfl, ?_, ?_, truthySha_eq_some, ?_⟩
      · intro u p hp
        simp at hp
      · intro st sf po hw
        exact absurd hw (by intro hc; exact SaveWorld.noConfusion hc)
      · simp
  | proceed st0 sf0 po0 =>
      rw [save_to_github_proceed token repo nowStr d st0 sf0 po0 h]
      refine ⟨rfl, ?_, ?_, truthySha_eq_some, ?_⟩
      · intro u p hp
        simp only [List.mem_cons, List.mem_singleton, List.not_mem_nil, or_false] at hp
        rcases hp with hp | hp
        · exact absurd hp (by intro hc; exact Request.noConfusion hc)
        · obtain ⟨hu, hpay⟩ := Request.put.inj hp
          subst hu
          subst hpay
          exact ⟨rfl, rfl, rfl⟩
      · intro st sf po hw
        obtain ⟨h1, h2, h3⟩ := SaveWorld.proceed.inj hw
        subst h1
        subst h2
        subst h3
        rfl
      · cases po0 with
        | status code =>
            constructor
            · intro hc
              exact ⟨st0, sf0, code, rfl, by simpa using hc⟩
            · rintro ⟨st, sf, c, hw, hc⟩
              obtain ⟨h1, h2, h3⟩ := SaveWorld.proceed.inj hw
              obtain h4 := PutOutcome.status.inj h3
              subst h4
              exact decide_eq_true hc
        | exn =>
            simp

/-- C8 witness: successful save with a found revision token. -/
theorem claim_C8_save_payload_witness :
    ("tok" : String) ≠ ""
    ∧ ((save_to_github "tok" "o/r" "ts" emptySkeleton
          (.proceed 200 (some "abc") (.status 201))).2.head?
          = some (.get (githubUrl "o/r"))
      ∧ (∀ u p, Request.put u p ∈ (save_to_github "tok" "o/r" "ts" emptySkeleton
            (.proceed 200 (some "abc") (.status 201))).2 →
          u = githubUrl "o/r"
          ∧ p.content = b64encode (jsonDumps emptySkeleton)
          ∧ p.message = "Update visitor stats - " ++ "ts")
      ∧ (∀ st shaField po,
          (SaveWorld.proceed 200 (some "abc") (.status 201)) = .proceed st shaField po →
          (save_to_github "tok" "o/r" "ts" emptySkeleton
              (.proceed 200 (some "abc") (.status 201))).2
            = [.get (githubUrl "o/r"),
               .put (githubUrl "o/r")
                 ⟨"Update visitor stats - " ++ "ts", b64encode (jsonDumps emptySkeleton),
                   truthySha (if st = 200 then shaField else none)⟩])
      ∧ (∀ st shaField s, truthySha (if st = 200 then shaField else none) = some s ↔
          st = 200 ∧ shaField = some s ∧ s ≠ "")
      ∧ ((save_to_github "tok" "o/r" "ts" emptySkeleton
            (.proceed 200 (some "abc") (.status 201))).1 = true ↔
          ∃ st shaField code,
            (SaveWorld.proceed 200 (some "abc") (.status 201))
              = .proceed st shaField (.status code)
            ∧ (code = 200 ∨ code = 201))) :=
  ⟨by decide, claim_C8_save_payload "tok" "o/r" "ts" emptySkeleton
    (.proceed 200 (some "abc") (.status 201)) (by decide)⟩

/-- C10: the track response reports the loaded counter plus one (not the
length of the visits list), and the length of `unique_visitors` after the
conditional insertion — for every loaded document, including one whose
counter disagrees with its visits list. -/
theorem claim_C10_response_from_counter (token repo : String) (d : VisitorDocument)
    (ip : String) (ua : Option String) (ts nowStr : String) (w : SaveWorld)
    (h0 : token ≠ "") :
    (track_visit token repo (.ok d) ip ua ts nowStr w).1.total_visits = d.total_visits + 1
    ∧ (track_visit token repo (.ok d) ip ua ts nowStr w).1.unique_visitors
        = (if ip ∈ d.unique_visitors then d.unique_visitors.length
           else d.unique_visitors.length + 1) := by
  constructor
  · show (recordVisit (get_github_file token repo (.ok d)).1 ip (userAgentOf ua)
        ts).total_visits = d.total_visits + 1
    rw [get_github_file_ok token repo d h0, recordVisit_total]
  · show (recordVisit (get_github_file token repo (.ok d)).1 ip (userAgentOf ua)
        ts).unique_visitors.length = _
    rw [get_github_file_ok token repo d h0, recordVisit_unique]
    by_cases hm : ip ∈ d.unique_visitors
    · rw [if_pos hm, if_pos hm]
    · rw [if_neg hm, if_neg hm, List.length_append]
      rfl

/-- C10 witness: a document whose counter (100) disagrees with its visits
list (length 1); the response still reports 101. -/
theorem claim_C10_response_from_counter_witness :
    ("tok" : String) ≠ ""
    ∧ ((track_visit "tok" "o/r" (.ok ⟨100, ["a"], [⟨"t0", "a", "u"⟩]⟩) "b" (some "m")
        "t1" "now" .fetchExn).1.total_visits
          = (⟨100, ["a"], [⟨"t0", "a", "u"⟩]⟩ : VisitorDocument).total_visits + 1
      ∧ (track_visit "tok" "o/r" (.ok ⟨100, ["a"], [⟨"t0", "a", "u"⟩]⟩) "b" (some "m")
          "t1" "now" .fetchExn).1.unique_visitors
          = (if "b" ∈ (⟨100, ["a"], [⟨"t0", "a", "u"⟩]⟩ : VisitorDocument).unique_visitors
             then (⟨100, ["a"], [⟨"t0", "a", "u"⟩]⟩ : VisitorDocument).unique_visitors.length
             else (⟨100, ["a"], [⟨"t0", "a", "u"⟩]⟩ :
                VisitorDocument).unique_visitors.length + 1)) :=
  ⟨by decide,
    claim_C10_response_from_counter "tok" "o/r" ⟨100, ["a"], [⟨"t0", "a", "u"⟩]⟩
      "b" (some "m") "t1" "now" .fetchExn (by decide)⟩

end VisitorTracker
